import Mathlib

/-!
Verification of `authlib/integrations/httpx_client/oauth1_client.py`:
a shallow embedding of the OAuth 1 httpx client (the `OAuth1Auth` signer,
the `AsyncOAuth1Client` / `OAuth1Client` constructors and the
access-token fetch) together with theorems about its behaviour.
-/

namespace Authlib

/-- A Python value, as far as the constructor keyword arguments need:
`None`, booleans, strings, an opaque WSGI application object, and an
`httpx.WSGITransport` wrapping such a value. -/
inductive PyVal where
  | pynone
  | bool (b : Bool)
  | str (s : String)
  | appObj (handle : Nat)
  | wsgiTransport (app : PyVal)
deriving DecidableEq

/-- Keyword arguments: an association list from names to Python values. -/
abbrev Kwargs := List (String × PyVal)

/-- First-match lookup in an association list keyed by strings. -/
def alistLookup {α : Type} : List (String × α) → String → Option α
  | [], _ => Option.none
  | (k, v) :: rest, key => if k = key then some v else alistLookup rest key

/-- Remove every binding of a key (Python `dict.pop`). -/
def removeKw {α : Type} (l : List (String × α)) (key : String) : List (String × α) :=
  l.filter (fun kv => kv.1 != key)

/-- Python `dict[key] = v`: drop any old binding and bind the key to `v`. -/
def setKw {α : Type} (l : List (String × α)) (key : String) (v : α) : List (String × α) :=
  removeKw l key ++ [(key, v)]

/-- The keyword names `extract_client_kwargs` treats as httpx client options. -/
def HTTPX_CLIENT_KWARGS : List String :=
  ["headers", "cookies", "verify", "cert", "http1", "http2", "proxies",
   "mounts", "timeout", "follow_redirects", "limits", "max_redirects",
   "event_hooks", "base_url", "transport", "app", "trust_env"]

/-- Modelled from the spec: `extract_client_kwargs` (defined in
`httpx_client/utils.py`, which is not among the sources) splits the
transport-level keyword arguments (the configuration of the underlying
HTTP transport, such as `verify`, `app`, `transport`) off from the
OAuth-level ones, keeping their values unchanged. -/
def extract_client_kwargs (kwargs : Kwargs) : Kwargs :=
  kwargs.filter (fun kv => HTTPX_CLIENT_KWARGS.contains kv.1)

/-- The keyword arguments `AsyncOAuth1Client.__init__` passes to
`httpx.AsyncClient.__init__`: the extracted client kwargs with `verify`
unconditionally overwritten to `False`. -/
def AsyncOAuth1Client.init_client_kwargs (kwargs : Kwargs) : Kwargs :=
  setKw (extract_client_kwargs kwargs) "verify" (PyVal.bool false)

/-- The keyword arguments `OAuth1Client.__init__` passes to
`httpx.Client.__init__`: the extracted client kwargs with `verify`
unconditionally overwritten to `False`, and a non-`None` `app` value
popped and replaced by a `transport` bound to `httpx.WSGITransport(app=...)`. -/
def OAuth1Client.init_client_kwargs (kwargs : Kwargs) : Kwargs :=
  let ck := setKw (extract_client_kwargs kwargs) "verify" (PyVal.bool false)
  let app_value := (alistLookup ck "app").getD PyVal.pynone
  let ck := removeKw ck "app"
  if app_value = PyVal.pynone then ck
  else setKw ck "transport" (PyVal.wsgiTransport app_value)

/-! Association-list lemmas. -/

theorem removeKw_cons {α : Type} (k : String) (v : α) (rest : List (String × α))
    (key : String) :
    removeKw ((k, v) :: rest) key =
      if k = key then removeKw rest key else (k, v) :: removeKw rest key := by
  by_cases h : k = key <;> simp [removeKw, List.filter_cons, h]

theorem alistLookup_append_none {α : Type} (a b : List (String × α)) (key : String)
    (h : alistLookup a key = Option.none) :
    alistLookup (a ++ b) key = alistLookup b key := by
  induction a with
  | nil => rfl
  | cons kv rest ih =>
    by_cases hk : kv.1 = key
    · simp [alistLookup, hk] at h
    · simp only [alistLookup, if_neg hk] at h
      rw [List.cons_append]
      simp only [alistLookup, if_neg hk]
      exact ih h

theorem alistLookup_removeKw_self {α : Type} (l : List (String × α)) (key : String) :
    alistLookup (removeKw l key) key = Option.none := by
  induction l with
  | nil => rfl
  | cons kv rest ih =>
    rcases kv with ⟨k, v⟩
    rw [removeKw_cons]
    by_cases h : k = key
    · rw [if_pos h]; exact ih
    · rw [if_neg h]
      simp only [alistLookup, if_neg h]
      exact ih

theorem alistLookup_removeKw_ne {α : Type} (l : List (String × α)) (key key' : String)
    (h : key ≠ key') : alistLookup (removeKw l key) key' = alistLookup l key' := by
  induction l with
  | nil => rfl
  | cons kv rest ih =>
    rcases kv with ⟨k, v⟩
    rw [removeKw_cons]
    by_cases hk : k = key
    · subst hk
      rw [if_pos rfl, ih]
      simp [alistLookup, h]
    · rw [if_neg hk]
      by_cases hk' : k = key'
      · subst hk'
        simp [alistLookup]
      · simp only [alistLookup, if_neg hk']
        exact ih

theorem alistLookup_setKw_self {α : Type} (l : List (String × α)) (key : String) (v : α) :
    alistLookup (setKw l key v) key = some v := by
  rw [setKw, alistLookup_append_none _ _ _ (alistLookup_removeKw_self l key)]
  simp [alistLookup]

theorem alistLookup_setKw_ne {α : Type} (l : List (String × α)) (key key' : String) (v : α)
    (h : key ≠ key') : alistLookup (setKw l key v) key' = alistLookup l key' := by
  have hne : key' ≠ key := fun hh => h hh.symm
  induction l with
  | nil => simp [setKw, removeKw, alistLookup, h]
  | cons kv rest ih =>
    rcases kv with ⟨k, v'⟩
    rw [setKw, removeKw_cons]
    by_cases hk : k = key
    · rw [if_pos hk]
      rw [setKw] at ih
      have hk' : k ≠ key' := hk ▸ h
      simp only [alistLookup, if_neg hk']
      exact ih
    · rw [if_neg hk]
      rw [setKw] at ih
      by_cases hk' : k = key'
      · simp [alistLookup, hk']
      · simp only [List.cons_append, alistLookup, if_neg hk']
        exact ih

theorem alistLookup_filter_of_mem {α : Type} (l : List (String × α)) (p : String → Bool)
    (key : String) (hk : p key = true) :
    alistLookup (l.filter (fun kv => p kv.1)) key = alistLookup l key := by
  induction l with
  | nil => rfl
  | cons kv rest ih =>
    by_cases h : kv.1 = key
    · rw [List.filter_cons, h, hk]
      simp [alistLookup, h, ih]
    · by_cases hp : p kv.1
      · rw [List.filter_cons, hp]
        simp only [alistLookup, if_neg h, if_pos rfl]
        exact ih
      · rw [List.filter_cons]
        simp only [hp, Bool.false_eq_true, if_neg, ite_false]
        rw [ih]
        simp [alistLookup, h]

theorem alistLookup_extract_client_kwargs (kwargs : Kwargs) (key : String)
    (hk : HTTPX_CLIENT_KWARGS.contains key = true) :
    alistLookup (extract_client_kwargs kwargs) key = alistLookup kwargs key :=
  alistLookup_filter_of_mem kwargs (fun k => HTTPX_CLIENT_KWARGS.contains k) key hk

/-- Both constructors force `verify := False` in the kwargs handed to httpx
(synchronous variant). -/
theorem sync_init_verify_false (kwargs : Kwargs) :
    alistLookup (OAuth1Client.init_client_kwargs kwargs) "verify" = some (PyVal.bool false) := by
  unfold OAuth1Client.init_client_kwargs
  set ck := setKw (extract_client_kwargs kwargs) "verify" (PyVal.bool false) with hck
  have hbase : alistLookup ck "verify" = some (PyVal.bool false) := by
    rw [hck]; exact alistLookup_setKw_self _ _ _
  have happ : alistLookup (removeKw ck "app") "verify" = some (PyVal.bool false) := by
    rw [alistLookup_removeKw_ne ck "app" "verify" (by decide)]; exact hbase
  by_cases h : (alistLookup ck "app").getD PyVal.pynone = PyVal.pynone
  · simp only [h, if_pos rfl]
    exact happ
  · simp only [if_neg h]
    rw [alistLookup_setKw_ne _ "transport" "verify" _ (by decide)]
    exact happ

/-- Both constructors force `verify := False` in the kwargs handed to httpx
(asynchronous variant). -/
theorem async_init_verify_false (kwargs : Kwargs) :
    alistLookup (AsyncOAuth1Client.init_client_kwargs kwargs) "verify" = some (PyVal.bool false) :=
  alistLookup_setKw_self _ _ _

/-- C4: every construction of the synchronous `OAuth1Client` in which the
caller does not opt in to strict certificate verification (does not pass
`verify=True`) hands `verify = False` to the underlying `httpx.Client`. -/
theorem sync_client_verification_disabled_by_default (kwargs : Kwargs)
    (_h : alistLookup kwargs "verify" ≠ some (PyVal.bool true)) :
    alistLookup (OAuth1Client.init_client_kwargs kwargs) "verify" =
      some (PyVal.bool false) :=
  sync_init_verify_false kwargs

/-- Closed instance of `sync_client_verification_disabled_by_default` at a
concrete kwargs list that does not opt in to verification. -/
theorem sync_client_verification_disabled_by_default_witness :
    alistLookup (OAuth1Client.init_client_kwargs [("timeout", PyVal.str "10")]) "verify" =
      some (PyVal.bool false) :=
  sync_client_verification_disabled_by_default [("timeout", PyVal.str "10")] (by decide)

/-- C5: for every combination of constructor keyword arguments (so in
particular for an explicit `verify=True`), both the synchronous and the
asynchronous client initialize httpx with `verify = False`: the assignment
is unconditional and overwrites any caller-supplied value. -/
theorem both_clients_force_verify_false (kwargs : Kwargs) :
    alistLookup (OAuth1Client.init_client_kwargs kwargs) "verify" =
        some (PyVal.bool false) ∧
    alistLookup (AsyncOAuth1Client.init_client_kwargs kwargs) "verify" =
        some (PyVal.bool false) :=
  ⟨sync_init_verify_false kwargs, async_init_verify_false kwargs⟩

/-- C10: when the synchronous `OAuth1Client` is constructed with a non-`None`
`app` keyword argument, the `app` key is removed from the kwargs passed to
`httpx.Client` and a `transport` kwarg holding `httpx.WSGITransport(app=...)`
is put in its place; the asynchronous `AsyncOAuth1Client` performs no such
conversion (its `app` kwarg is passed through and no `transport` is added). -/
theorem sync_app_kwarg_becomes_wsgi_transport (kwargs : Kwargs) (a : PyVal)
    (h : alistLookup kwargs "app" = some a) (ha : a ≠ PyVal.pynone) :
    alistLookup (OAuth1Client.init_client_kwargs kwargs) "app" = Option.none ∧
    alistLookup (OAuth1Client.init_client_kwargs kwargs) "transport" =
        some (PyVal.wsgiTransport a) ∧
    alistLookup (AsyncOAuth1Client.init_client_kwargs kwargs) "app" = some a ∧
    alistLookup (AsyncOAuth1Client.init_client_kwargs kwargs) "transport" =
        alistLookup kwargs "transport" := by
  have hextract : alistLookup (extract_client_kwargs kwargs) "app" = some a := by
    rw [alistLookup_extract_client_kwargs kwargs "app" (by decide)]; exact h
  have hckapp :
      alistLookup (setKw (extract_client_kwargs kwargs) "verify" (PyVal.bool false)) "app" =
        some a := by
    rw [alistLookup_setKw_ne _ "verify" "app" _ (by decide)]
    exact hextract
  simp only [OAuth1Client.init_client_kwargs, AsyncOAuth1Client.init_client_kwargs]
  rw [hckapp, Option.getD_some, if_neg ha]
  refine ⟨?_, ?_, ?_, ?_⟩
  · rw [alistLookup_setKw_ne _ "transport" "app" _ (by decide)]
    exact alistLookup_removeKw_self _ "app"
  · exact alistLookup_setKw_self _ _ _
  · rfl
  · rw [alistLookup_setKw_ne _ "verify" "transport" _ (by decide)]
    exact alistLookup_extract_client_kwargs kwargs "transport" (by decide)

/-- Closed instance of `sync_app_kwarg_becomes_wsgi_transport` at a concrete
kwargs list carrying a WSGI application object. -/
theorem sync_app_kwarg_becomes_wsgi_transport_witness :
    alistLookup (OAuth1Client.init_client_kwargs [("app", PyVal.appObj 0)]) "app" =
        Option.none ∧
    alistLookup (OAuth1Client.init_client_kwargs [("app", PyVal.appObj 0)]) "transport" =
        some (PyVal.wsgiTransport (PyVal.appObj 0)) ∧
    alistLookup (AsyncOAuth1Client.init_client_kwargs [("app", PyVal.appObj 0)]) "app" =
        some (PyVal.appObj 0) ∧
    alistLookup (AsyncOAuth1Client.init_client_kwargs [("app", PyVal.appObj 0)]) "transport" =
        alistLookup [("app", PyVal.appObj 0)] "transport" :=
  sync_app_kwarg_becomes_wsgi_transport [("app", PyVal.appObj 0)] (PyVal.appObj 0)
    (by decide) (by decide)

/-! The access-token handshake of `AsyncOAuth1Client`. -/

/-- The `OAuthError(error, description)` raised by `handle_error`. -/
structure OAuthError where
  error : String
  description : String
deriving DecidableEq

/-- `handle_error` builds the `OAuthError` that it raises. -/
def handle_error (error_type error_description : String) : OAuthError :=
  ⟨error_type, error_description⟩

/-- A token dict: the key/value pairs parsed from the token endpoint body. -/
abbrev Token := List (String × String)

/-- The response the transport returns for the token-endpoint POST:
its status code and its body decoded to text (`to_unicode(await resp.aread())`). -/
structure Response where
  status_code : Nat
  body : String
deriving DecidableEq

/-- The mutable credential state of a client: the verifier held by the auth
signer (`self.auth.verifier`; `some ""` models an empty-string value, `none`
models Python `None`) and the stored token credentials (`self.token`). -/
structure ClientState where
  verifier : Option String
  token : Option Token
deriving DecidableEq

/-- Python truthiness of an optional string: `None` and `""` are falsy. -/
def optStrTruthy : Option String → Bool
  | Option.none => false
  | some s => !(s == "")

/-- Split a character list at every occurrence of the separator `c`. -/
def splitOnChar (c : Char) : List Char → List (List Char)
  | [] => [[]]
  | x :: xs =>
    let r := splitOnChar c xs
    if x = c then [] :: r
    else
      match r with
      | [] => [[x]]
      | y :: ys => (x :: y) :: ys

/-- Modelled from the spec: `url_decode` (in `authlib.common.urls`, not among
the sources) splits a form-encoded body into key/value pairs: pairs are
separated by `&`, a key is separated from its value by the first `=`, and a
fragment with no `=` yields no pair. -/
def url_decode (text : String) : Token :=
  (splitOnChar '&' text.toList).filterMap (fun pair =>
    match splitOnChar '=' pair with
    | [] => Option.none
    | [_] => Option.none
    | k :: rest => some (⟨k⟩, ⟨(rest.intersperse ['=']).flatten⟩))

/-- Modelled from the spec: `parse_response_token` (on the base
`authlib.oauth1.client.OAuth1Client`, not among the sources) rejects a
non-success status with a remote-error `OAuthError`, otherwise parses the
body as form-encoded key/values and requires both `oauth_token` and
`oauth_token_secret` to be present, failing with a missing-token
`OAuthError` otherwise. -/
def parse_response_token (status_code : Nat) (text : String) : Except OAuthError Token :=
  if 400 ≤ status_code then
    Except.error (handle_error "fetch_token_denied" "Token request failed")
  else
    let token := url_decode text
    if (alistLookup token "oauth_token").isSome &&
        (alistLookup token "oauth_token_secret").isSome then
      Except.ok token
    else
      Except.error (handle_error "missing_token" "Invalid token response")

/-- `AsyncOAuth1Client._fetch_token`: POST the token endpoint (the transport's
answer is the `resp` argument), parse the body, and on success store the
parsed token on the client. A parse failure propagates and leaves the state
unchanged. -/
def AsyncOAuth1Client.fetch_token_step (st : ClientState) (resp : Response) :
    Except OAuthError Token × ClientState :=
  match parse_response_token resp.status_code resp.body with
  | Except.error e => (Except.error e, st)
  | Except.ok token => (Except.ok token, { st with token := some token })

deriving instance DecidableEq for Except

/-- The observable outcome of one `fetch_access_token` call: the returned
token or raised error, the client state afterwards, and whether a network
POST to the token endpoint was issued. -/
structure FetchOutcome where
  result : Except OAuthError Token
  state : ClientState
  posted : Bool
deriving DecidableEq

/-- `AsyncOAuth1Client.fetch_access_token(url, verifier=None, ...)`:
a truthy `verifier` argument is stored on the auth signer; if the stored
verifier is falsy the call raises `missing_verifier` before any network
request; otherwise the token is fetched, the verifier is cleared and the
token returned. `resp` is the response the transport would return for the
POST. -/
def AsyncOAuth1Client.fetch_access_token (st : ClientState) (verifier : Option String)
    (resp : Response) : FetchOutcome :=
  let st1 := if optStrTruthy verifier then { st with verifier := verifier } else st
  if !optStrTruthy st1.verifier then
    { result := Except.error (handle_error "missing_verifier" "Missing \"verifier\" value"),
      state := st1, posted := false }
  else
    let ft := AsyncOAuth1Client.fetch_token_step st1 resp
    match ft.1 with
    | Except.error e => { result := Except.error e, state := ft.2, posted := true }
    | Except.ok token =>
        { result := Except.ok token,
          state := { ft.2 with verifier := Option.none }, posted := true }

/-! Case analysis of `fetch_access_token`. -/

theorem parse_response_token_ok (status_code : Nat) (text : String) (tok : Token)
    (h : parse_response_token status_code text = Except.ok tok) :
    tok = url_decode text ∧ status_code < 400 ∧
    (alistLookup tok "oauth_token").isSome = true ∧
    (alistLookup tok "oauth_token_secret").isSome = true := by
  unfold parse_response_token at h
  split at h
  · cases h
  · dsimp only at h
    split at h
    · next hguard =>
        cases h
        simp only [Bool.and_eq_true] at hguard
        exact ⟨rfl, by omega, hguard.1, hguard.2⟩
    · cases h

theorem parse_response_token_error_types (status_code : Nat) (text : String) (e : OAuthError)
    (h : parse_response_token status_code text = Except.error e) :
    e.error = "fetch_token_denied" ∨ e.error = "missing_token" := by
  unfold parse_response_token at h
  split at h
  · cases h; exact Or.inl rfl
  · dsimp only at h
    split at h
    · cases h
    · cases h; exact Or.inr rfl

theorem fetch_access_token_missing_case (st : ClientState) (verifier : Option String)
    (resp : Response) (hv : optStrTruthy verifier = false)
    (hsv : optStrTruthy st.verifier = false) :
    AsyncOAuth1Client.fetch_access_token st verifier resp =
      ⟨Except.error (handle_error "missing_verifier" "Missing \"verifier\" value"),
       st, false⟩ := by
  unfold AsyncOAuth1Client.fetch_access_token
  simp [hv, hsv]

theorem fetch_access_token_error_case (st : ClientState) (verifier : Option String)
    (resp : Response) (e : OAuthError)
    (htr : optStrTruthy
      (if optStrTruthy verifier then { st with verifier := verifier } else st).verifier = true)
    (hp : parse_response_token resp.status_code resp.body = Except.error e) :
    AsyncOAuth1Client.fetch_access_token st verifier resp =
      ⟨Except.error e,
       if optStrTruthy verifier then { st with verifier := verifier } else st, true⟩ := by
  unfold AsyncOAuth1Client.fetch_access_token AsyncOAuth1Client.fetch_token_step
  simp [htr, hp]

theorem fetch_access_token_success_case (st : ClientState) (verifier : Option String)
    (resp : Response) (tok : Token)
    (htr : optStrTruthy
      (if optStrTruthy verifier then { st with verifier := verifier } else st).verifier = true)
    (hp : parse_response_token resp.status_code resp.body = Except.ok tok) :
    AsyncOAuth1Client.fetch_access_token st verifier resp =
      ⟨Except.ok tok, ⟨Option.none, some tok⟩, true⟩ := by
  unfold AsyncOAuth1Client.fetch_access_token AsyncOAuth1Client.fetch_token_step
  simp [htr, hp]

theorem fetch_access_token_cases (st : ClientState) (verifier : Option String)
    (resp : Response) :
    (optStrTruthy verifier = false ∧ optStrTruthy st.verifier = false ∧
      AsyncOAuth1Client.fetch_access_token st verifier resp =
        ⟨Except.error (handle_error "missing_verifier" "Missing \"verifier\" value"),
         st, false⟩) ∨
    (∃ e, parse_response_token resp.status_code resp.body = Except.error e ∧
      optStrTruthy
        (if optStrTruthy verifier then { st with verifier := verifier } else st).verifier
          = true ∧
      AsyncOAuth1Client.fetch_access_token st verifier resp =
        ⟨Except.error e,
         if optStrTruthy verifier then { st with verifier := verifier } else st, true⟩) ∨
    (∃ tok, parse_response_token resp.status_code resp.body = Except.ok tok ∧
      optStrTruthy
        (if optStrTruthy verifier then { st with verifier := verifier } else st).verifier
          = true ∧
      AsyncOAuth1Client.fetch_access_token st verifier resp =
        ⟨Except.ok tok, ⟨Option.none, some tok⟩, true⟩) := by
  by_cases htr : optStrTruthy
      (if optStrTruthy verifier then { st with verifier := verifier } else st).verifier = true
  · obtain ⟨r, hp⟩ : ∃ r, parse_response_token resp.status_code resp.body = r := ⟨_, rfl⟩
    cases r with
    | error e =>
        exact Or.inr (Or.inl ⟨e, hp, htr,
          fetch_access_token_error_case st verifier resp e htr hp⟩)
    | ok tok =>
        exact Or.inr (Or.inr ⟨tok, hp, htr,
          fetch_access_token_success_case st verifier resp tok htr hp⟩)
  · have hv : optStrTruthy verifier = false := by
      by_contra hv
      rw [Bool.not_eq_false] at hv
      exact htr (by simp [hv])
    have hsv : optStrTruthy st.verifier = false := by
      rw [hv, if_neg (by simp)] at htr
      exact Bool.not_eq_true _ ▸ Bool.eq_false_iff.mpr htr
    exact Or.inl ⟨hv, hsv, fetch_access_token_missing_case st verifier resp hv hsv⟩

/-- C1: every call to `fetch_access_token` on a client whose stored verifier
is absent (`None`) with no verifier argument supplied fails with the
`missing_verifier` `OAuthError` rather than returning a token. -/
theorem fetch_access_token_without_verifier_fails (st : ClientState) (resp : Response)
    (h : st.verifier = Option.none) :
    (AsyncOAuth1Client.fetch_access_token st Option.none resp).result =
      Except.error (handle_error "missing_verifier" "Missing \"verifier\" value") := by
  rw [fetch_access_token_missing_case st Option.none resp rfl (by rw [h]; rfl)]

/-- Closed instance of `fetch_access_token_without_verifier_fails` at a
concrete client with no verifier. -/
theorem fetch_access_token_without_verifier_fails_witness :
    (AsyncOAuth1Client.fetch_access_token ⟨Option.none, Option.none⟩ Option.none
        ⟨200, "oauth_token=at&oauth_token_secret=ats"⟩).result =
      Except.error (handle_error "missing_verifier" "Missing \"verifier\" value") :=
  fetch_access_token_without_verifier_fails ⟨Option.none, Option.none⟩
    ⟨200, "oauth_token=at&oauth_token_secret=ats"⟩ rfl

/-- C2: after every `fetch_access_token` call that returns a token (does not
raise), the verifier held by the client is `None` — the verifier is
single-use, whether it was passed as an argument or already stored. -/
theorem fetch_access_token_clears_verifier (st : ClientState) (verifier : Option String)
    (resp : Response) (tok : Token)
    (h : (AsyncOAuth1Client.fetch_access_token st verifier resp).result = Except.ok tok) :
    (AsyncOAuth1Client.fetch_access_token st verifier resp).state.verifier =
      Option.none := by
  rcases fetch_access_token_cases st verifier resp with
    ⟨_, _, heq⟩ | ⟨e, _, _, heq⟩ | ⟨tok', _, _, heq⟩
  · rw [heq] at h; simp at h
  · rw [heq] at h; simp at h
  · rw [heq]

/-- Closed instance of `fetch_access_token_clears_verifier` on a concrete
successful run. -/
theorem fetch_access_token_clears_verifier_witness :
    (AsyncOAuth1Client.fetch_access_token ⟨some "v1", Option.none⟩ Option.none
        ⟨200, "oauth_token=at&oauth_token_secret=ats"⟩).state.verifier = Option.none :=
  fetch_access_token_clears_verifier ⟨some "v1", Option.none⟩ Option.none
    ⟨200, "oauth_token=at&oauth_token_secret=ats"⟩
    [("oauth_token", "at"), ("oauth_token_secret", "ats")] (by decide)

/-- C3: every successful `fetch_access_token` parses the response body as a
form-encoded token that contains `oauth_token` and `oauth_token_secret`,
replaces the client's stored token credentials with the parsed token, and
returns that same token dict. -/
theorem fetch_access_token_stores_and_returns_token (st : ClientState)
    (verifier : Option String) (resp : Response) (tok : Token)
    (h : (AsyncOAuth1Client.fetch_access_token st verifier resp).result = Except.ok tok) :
    tok = url_decode resp.body ∧
    (alistLookup tok "oauth_token").isSome = true ∧
    (alistLookup tok "oauth_token_secret").isSome = true ∧
    (AsyncOAuth1Client.fetch_access_token st verifier resp).state.token = some tok := by
  rcases fetch_access_token_cases st verifier resp with
    ⟨_, _, heq⟩ | ⟨e, _, _, heq⟩ | ⟨tok', hp, _, heq⟩
  · rw [heq] at h; simp at h
  · rw [heq] at h; simp at h
  · rw [heq] at h
    simp only [Except.ok.injEq] at h
    subst h
    obtain ⟨hurl, _, h1, h2⟩ := parse_response_token_ok resp.status_code resp.body tok' hp
    exact ⟨hurl, h1, h2, by rw [heq]⟩

/-- Closed instance of `fetch_access_token_stores_and_returns_token` on a
concrete successful run. -/
theorem fetch_access_token_stores_and_returns_token_witness :
    [("oauth_token", "at"), ("oauth_token_secret", "ats")] =
        url_decode "oauth_token=at&oauth_token_secret=ats" ∧
    (alistLookup [("oauth_token", "at"), ("oauth_token_secret", "ats")]
        "oauth_token").isSome = true ∧
    (alistLookup [("oauth_token", "at"), ("oauth_token_secret", "ats")]
        "oauth_token_secret").isSome = true ∧
    (AsyncOAuth1Client.fetch_access_token ⟨some "v1", Option.none⟩ Option.none
        ⟨200, "oauth_token=at&oauth_token_secret=ats"⟩).state.token =
      some [("oauth_token", "at"), ("oauth_token_secret", "ats")] :=
  fetch_access_token_stores_and_returns_token ⟨some "v1", Option.none⟩ Option.none
    ⟨200, "oauth_token=at&oauth_token_secret=ats"⟩
    [("oauth_token", "at"), ("oauth_token_secret", "ats")] (by decide)

/-- C8: whenever `fetch_access_token` fails with the `missing_verifier`
error, no network request was sent to the token endpoint and the stored
token credentials and verifier are unchanged by the failed call. -/
theorem missing_verifier_raised_before_network (st : ClientState)
    (verifier : Option String) (resp : Response) (e : OAuthError)
    (h : (AsyncOAuth1Client.fetch_access_token st verifier resp).result = Except.error e)
    (he : e.error = "missing_verifier") :
    (AsyncOAuth1Client.fetch_access_token st verifier resp).posted = false ∧
    (AsyncOAuth1Client.fetch_access_token st verifier resp).state = st := by
  rcases fetch_access_token_cases st verifier resp with
    ⟨_, _, heq⟩ | ⟨e', hp, _, heq⟩ | ⟨tok, _, _, heq⟩
  · exact ⟨by rw [heq], by rw [heq]⟩
  · rw [heq] at h
    simp only [Except.error.injEq] at h
    subst h
    rcases parse_response_token_error_types resp.status_code resp.body _ hp with h1 | h1 <;>
      · rw [h1] at he
        exact absurd he (by decide)
  · rw [heq] at h; simp at h

/-- Closed instance of `missing_verifier_raised_before_network` at a concrete
client with stored token credentials but no verifier. -/
theorem missing_verifier_raised_before_network_witness :
    (AsyncOAuth1Client.fetch_access_token ⟨Option.none, some [("oauth_token", "rt")]⟩
        Option.none ⟨200, ""⟩).posted = false ∧
    (AsyncOAuth1Client.fetch_access_token ⟨Option.none, some [("oauth_token", "rt")]⟩
        Option.none ⟨200, ""⟩).state = ⟨Option.none, some [("oauth_token", "rt")]⟩ :=
  missing_verifier_raised_before_network ⟨Option.none, some [("oauth_token", "rt")]⟩
    Option.none ⟨200, ""⟩
    (handle_error "missing_verifier" "Missing \"verifier\" value") rfl rfl

/-- C9: passing an empty string as the verifier argument behaves exactly as
if the argument had been omitted: the empty string is not stored, and if no
truthy verifier is already stored the call fails with `missing_verifier`
while leaving the state unchanged. -/
theorem empty_verifier_treated_as_absent (st : ClientState) (resp : Response) :
    AsyncOAuth1Client.fetch_access_token st (some "") resp =
      AsyncOAuth1Client.fetch_access_token st Option.none resp ∧
    (optStrTruthy st.verifier = false →
      AsyncOAuth1Client.fetch_access_token st (some "") resp =
        ⟨Except.error (handle_error "missing_verifier" "Missing \"verifier\" value"),
         st, false⟩) := by
  constructor
  · rfl
  · intro hsv
    exact fetch_access_token_missing_case st (some "") resp rfl hsv

/-- Closed instance of `empty_verifier_treated_as_absent` at a concrete
client with no stored verifier. -/
theorem empty_verifier_treated_as_absent_witness :
    AsyncOAuth1Client.fetch_access_token ⟨Option.none, Option.none⟩ (some "") ⟨200, ""⟩ =
      AsyncOAuth1Client.fetch_access_token ⟨Option.none, Option.none⟩ Option.none
        ⟨200, ""⟩ ∧
    AsyncOAuth1Client.fetch_access_token ⟨Option.none, Option.none⟩ (some "") ⟨200, ""⟩ =
      ⟨Except.error (handle_error "missing_verifier" "Missing \"verifier\" value"),
       ⟨Option.none, Option.none⟩, false⟩ :=
  ⟨(empty_verifier_treated_as_absent ⟨Option.none, Option.none⟩ ⟨200, ""⟩).1,
   (empty_verifier_treated_as_absent ⟨Option.none, Option.none⟩ ⟨200, ""⟩).2 rfl⟩

/-! The `OAuth1Auth` request signer. -/

/-- UTF-8 encoding of one character, as a list of byte values. -/
def utf8Bytes (c : Char) : List Nat :=
  let n := c.toNat
  if n < 128 then [n]
  else if n < 2048 then [192 + n / 64, 128 + n % 64]
  else if n < 65536 then [224 + n / 4096, 128 + (n / 64) % 64, 128 + n % 64]
  else [240 + n / 262144, 128 + (n / 4096) % 64, 128 + (n / 64) % 64, 128 + n % 64]

/-- The UTF-8 bytes of a string. -/
def strBytes (s : String) : List Nat :=
  (s.toList.map utf8Bytes).flatten

/-- RFC 3986 unreserved bytes: ALPHA / DIGIT / `-` / `.` / `_` / `~`. -/
def isUnreservedByte (b : Nat) : Bool :=
  (48 ≤ b && b ≤ 57) || (65 ≤ b && b ≤ 90) || (97 ≤ b && b ≤ 122) ||
    b == 45 || b == 46 || b == 95 || b == 126

/-- Upper-case hexadecimal digit for a value below 16. -/
def hexDigitChar (n : Nat) : Char :=
  if n < 10 then Char.ofNat (48 + n) else Char.ofNat (55 + n)

/-- Percent-encode one byte per RFC 3986. -/
def percentEncodeByte (b : Nat) : List Char :=
  if isUnreservedByte b then [Char.ofNat b]
  else ['%', hexDigitChar (b / 16), hexDigitChar (b % 16)]

/-- Percent-encode a string per the RFC 3986 unreserved-character rules. -/
def percentEncode (s : String) : String :=
  ⟨((strBytes s).map percentEncodeByte).flatten⟩

/-- Render parameters as a form-encoded / query string `k=v&k2=v2`. -/
def encodeParams (params : List (String × String)) : String :=
  String.intercalate "&"
    (params.map (fun kv => percentEncode kv.1 ++ "=" ++ percentEncode kv.2))

/-- Render the `Authorization: OAuth k1="v1", k2="v2"` header value. -/
def renderAuthHeader (params : List (String × String)) : String :=
  "OAuth " ++ String.intercalate ", "
    (params.map (fun kv => kv.1 ++ "=\"" ++ percentEncode kv.2 ++ "\""))

/-- Append parameters to a URL's query string. -/
def appendQueryParams (url : String) (params : List (String × String)) : String :=
  url ++ (if url.toList.contains '?' then "&" else "?") ++ encodeParams params

/-- Case-insensitive header-name comparison (httpx headers are
case-insensitive). -/
def headerKeyEq (a b : String) : Bool := a.toLower == b.toLower

/-- `headers[k] = v` on a case-insensitive header mapping. -/
def setHeader (hs : List (String × String)) (k v : String) : List (String × String) :=
  hs.filter (fun kv => !(headerKeyEq kv.1 k)) ++ [(k, v)]

/-- Case-insensitive header lookup. -/
def getHeader (hs : List (String × String)) (k : String) : Option String :=
  (hs.find? (fun kv => headerKeyEq kv.1 k)).map (fun kv => kv.2)

/-- Where the OAuth parameters are injected (`SIGNATURE_TYPE_HEADER`,
`..._QUERY`, `..._BODY`). -/
inductive SignatureType where
  | header
  | query
  | body
deriving DecidableEq

/-- The state of the `OAuth1Auth` signer (a `ClientAuth`): client identifier,
signature method name, parameter placement, and the current token identifier
and verifier. -/
structure OAuth1Auth where
  client_id : String
  signature_method : String
  signature_type : SignatureType
  token : Option String
  verifier : Option String
deriving DecidableEq

/-- Modelled from the spec: the Authorization Builder produces the `oauth_*`
protocol parameters; the per-request `timestamp` and `nonce` and the
Signature Engine's `signature` output are taken as inputs, the token and
verifier entries appear only when present, and the signature comes last. -/
def buildAuthParams (auth : OAuth1Auth) (timestamp nonce signature : String) :
    List (String × String) :=
  [("oauth_consumer_key", auth.client_id),
   ("oauth_signature_method", auth.signature_method),
   ("oauth_timestamp", timestamp),
   ("oauth_nonce", nonce),
   ("oauth_version", "1.0")] ++
  (match auth.token with
   | some t => [("oauth_token", t)]
   | Option.none => []) ++
  (match auth.verifier with
   | some v => [("oauth_verifier", v)]
   | Option.none => []) ++
  [("oauth_signature", signature)]

/-- Modelled from the spec: `ClientAuth.prepare` (on `authlib.oauth1`'s
`ClientAuth`, not among the sources) renders the OAuth parameters into the
request according to the configured placement: HEADER adds an
`Authorization` header, QUERY appends them to the URL's query string, BODY
appends them to the form-encoded body; it returns the signed
`(url, headers, body)` triple and performs no network interaction. -/
def OAuth1Auth.prepare (auth : OAuth1Auth) (timestamp nonce signature : String)
    (method url : String) (headers : List (String × String)) (body : List Nat) :
    String × List (String × String) × List Nat :=
  let params := buildAuthParams auth timestamp nonce signature
  match auth.signature_type with
  | SignatureType.header =>
      (url, setHeader headers "Authorization" (renderAuthHeader params), body)
  | SignatureType.query => (appendQueryParams url params, headers, body)
  | SignatureType.body =>
      (url, headers,
       body ++ strBytes ((if body.isEmpty then "" else "&") ++ encodeParams params))

/-- An httpx request: method, URL, headers, and body bytes. -/
structure Request where
  method : String
  url : String
  headers : List (String × String)
  content : List Nat
deriving DecidableEq

/-- Modelled from the spec: `build_request` (in `httpx_client/utils.py`, not
among the sources) builds the signed request from the signed url, headers
and body, taking the HTTP method from the initial request; the caller's
request object is not mutated. -/
def build_request (url : String) (headers : List (String × String)) (body : List Nat)
    (initial_request : Request) : Request :=
  ⟨initial_request.method, url, headers, body⟩

/-- One state of an httpx `auth_flow` generator: either it has yielded a
request and waits to be resumed with a response, or it is exhausted. -/
inductive AuthFlowStep where
  | yield (req : Request) (k : Response → AuthFlowStep)
  | done

/-- `OAuth1Auth.auth_flow`: sign the outbound request with `self.prepare`,
set `Content-Length` to the length of the signed body, yield the single
signed request, and finish. The per-request `timestamp`, `nonce` and
`signature` inputs of the Authorization Builder are explicit arguments. -/
def OAuth1Auth.auth_flow (auth : OAuth1Auth) (timestamp nonce signature : String)
    (request : Request) : AuthFlowStep :=
  let p := auth.prepare timestamp nonce signature request.method request.url
    request.headers request.content
  let headers := setHeader p.2.1 "Content-Length" (toString p.2.2.length)
  AuthFlowStep.yield (build_request p.1 headers p.2.2 request)
    (fun _ => AuthFlowStep.done)

/-- The request yielded by a generator state, if any. -/
def yieldedRequest : AuthFlowStep → Option Request
  | AuthFlowStep.yield req _ => some req
  | AuthFlowStep.done => Option.none

theorem find?_filter_neg (l : List (String × String)) (q : (String × String) → Bool) :
    (l.filter (fun x => !(q x))).find? q = Option.none := by
  induction l with
  | nil => rfl
  | cons x xs ih =>
    by_cases h : q x
    · simp [List.filter_cons, h, ih]
    · simp [List.filter_cons, h, List.find?, ih]

theorem getHeader_setHeader_self (hs : List (String × String)) (k v : String) :
    getHeader (setHeader hs k v) k = some v := by
  unfold getHeader setHeader
  rw [List.find?_append, find?_filter_neg hs (fun kv => headerKeyEq kv.1 k)]
  simp [List.find?, headerKeyEq]

/-- C6: for every outbound request, `OAuth1Auth.auth_flow` yields exactly one
(signed) request and terminates after being resumed once, whatever response
it is resumed with: it performs no network interaction of its own and does
no re-signing or retry based on the response. -/
theorem auth_flow_yields_exactly_one_request (auth : OAuth1Auth)
    (timestamp nonce signature : String) (request : Request) :
    ∃ signed,
      auth.auth_flow timestamp nonce signature request =
        AuthFlowStep.yield signed (fun _ => AuthFlowStep.done) :=
  ⟨_, rfl⟩

/-- C7: every request yielded by `OAuth1Auth.auth_flow` carries a
`Content-Length` header equal to the byte length of the signed body,
recomputed after signature injection. -/
theorem auth_flow_content_length_matches_signed_body (auth : OAuth1Auth)
    (timestamp nonce signature : String) (request : Request) :
    ∃ signed,
      yieldedRequest (auth.auth_flow timestamp nonce signature request) = some signed ∧
      getHeader signed.headers "Content-Length" =
        some (toString signed.content.length) := by
  refine ⟨_, rfl, ?_⟩
  exact getHeader_setHeader_self _ "Content-Length" _

end Authlib
